import Mathlib

/-!
# Verification of the pricing-and-risk decision engine of a market-making bot

Shallow embedding of the core components of the `avellaneda_stoikov`
repository: the inventory manager (`src/risk/inventory_manager.py`), the
Avellaneda-Stoikov pricing model (`src/models/avellaneda_stoikov.py`), the
circuit breakers (`src/risk/circuit_breakers.py`), the realized-volatility
estimator (`src/utils/volatility.py`) and the relevant fragment of the
per-cycle orchestrator (`src/main.py`).

Python floats are modelled as exact numbers: rationals (`ℚ`) where the code
only does field arithmetic, reals (`ℝ`) where it uses `log`/`sqrt`. Methods
that may assign to `self` are embedded in state-passing style, returning the
updated object next to the method's return value, so that frame properties
are statable.
-/

namespace MarketMaker

/-! ## Inventory manager — `src/risk/inventory_manager.py` -/

/-- The mutable state of the Python class `InventoryManager`: the two
constructor parameters plus the two fields assigned in methods
(`current_inventory`, `base_balance`, both initialised to `0`). -/
structure InventoryManager where
  max_inventory_pct : ℚ
  skew_threshold : ℚ
  current_inventory : ℚ
  base_balance : ℚ

/-- `InventoryManager.__init__`: stores the parameters and zero-initialises
`current_inventory` and `base_balance`. -/
def InventoryManager.mk0 (max_inventory_pct skew_threshold : ℚ) : InventoryManager :=
  { max_inventory_pct := max_inventory_pct
    skew_threshold := skew_threshold
    current_inventory := 0
    base_balance := 0 }

/-- `InventoryManager.update_inventory(base_balance, quote_balance, mid_price)`:
computes `portfolio_value = base_balance*mid_price + quote_balance`; when it is
positive stores `2*base_value/portfolio_value - 1` into `current_inventory`,
otherwise stores `0`; always stores `base_balance`; returns the new
`current_inventory`. Embedded state-passing: the first component is the
updated object. -/
def update_inventory (s : InventoryManager) (base_balance quote_balance mid_price : ℚ) :
    InventoryManager × ℚ :=
  let portfolio_value := base_balance * mid_price + quote_balance
  let current_inventory :=
    if portfolio_value > 0 then
      let base_value := base_balance * mid_price
      2 * base_value / portfolio_value - 1
    else 0
  ({ s with current_inventory := current_inventory, base_balance := base_balance },
   current_inventory)

/-- `InventoryManager.adjust_spreads(base_spread, inventory_pct=None)`: the
optional argument is modelled as `Option ℚ`, `none` meaning "use the stored
`current_inventory`". No assignment to `self` occurs in the Python body, so the
returned state is the input state. -/
def adjust_spreads (s : InventoryManager) (base_spread : ℚ × ℚ)
    (inventory_pct? : Option ℚ) : InventoryManager × (ℚ × ℚ) :=
  let inventory_pct := inventory_pct?.getD s.current_inventory
  let bid_spread := base_spread.1
  let ask_spread := base_spread.2
  if |inventory_pct| ≤ s.skew_threshold then
    (s, (bid_spread, ask_spread))
  else
    let adjustment_factor :=
      max 0 ((|inventory_pct| - s.skew_threshold) /
        (s.max_inventory_pct - s.skew_threshold))
    let adjustment_factor := min adjustment_factor 0.8
    let adjusted :=
      if inventory_pct > 0 then
        (bid_spread * (1 + adjustment_factor * 0.5),
         ask_spread * max 0.2 (1 - adjustment_factor))
      else
        (bid_spread * max 0.2 (1 - adjustment_factor),
         ask_spread * (1 + adjustment_factor * 0.5))
    let min_spread := min bid_spread ask_spread * 0.1
    (s, (max adjusted.1 min_spread, max adjusted.2 min_spread))

/-- `InventoryManager.is_inventory_balanced()`: `|current_inventory| <=
max_inventory_pct`. Reads `self` only. -/
def is_inventory_balanced (s : InventoryManager) : InventoryManager × Bool :=
  (s, decide (|s.current_inventory| ≤ s.max_inventory_pct))

/-- Order side returned by `get_rebalance_amount` (Python strings
`'sell'`/`'buy'`). -/
inductive Side
  | sell : Side
  | buy : Side

/-- `InventoryManager.get_rebalance_amount(mid_price)`: `(None, 0)` when
`|current_inventory| <= skew_threshold`, else the excess inventory and the
side to trade. `mid_price` is a parameter the Python body never uses. Reads
`self` only. -/
def get_rebalance_amount (s : InventoryManager) (mid_price : ℚ) :
    InventoryManager × (Option Side × ℚ) :=
  if |s.current_inventory| ≤ s.skew_threshold then
    (s, (none, 0))
  else
    let excess_pct := |s.current_inventory| - s.skew_threshold
    let excess_amount := excess_pct * s.base_balance
    let side := if s.current_inventory > 0 then Side.sell else Side.buy
    (s, (some side, excess_amount))

end MarketMaker

namespace MarketMaker

/-! ## Theorems about the inventory manager -/

/-- C4: for every spread pair and every `inventory_pct` with
`|inventory_pct| ≤ skew_threshold`, `adjust_spreads` returns the input spread
pair unchanged. -/
theorem adjust_spreads_balanced_id (s : InventoryManager) (bid ask ip : ℚ)
    (h : |ip| ≤ s.skew_threshold) :
    (adjust_spreads s (bid, ask) (some ip)).2 = (bid, ask) := by
  simp only [adjust_spreads, Option.getD_some]
  rw [if_pos h]

/-- Witness for C4 at `skew_threshold = 0.2`, `inventory_pct = 0.1`. -/
theorem adjust_spreads_balanced_id_witness :
    |(0.1 : ℚ)| ≤ (InventoryManager.mk0 0.35 0.2).skew_threshold ∧
      (adjust_spreads (InventoryManager.mk0 0.35 0.2) (1, 2) (some 0.1)).2 = (1, 2) :=
  ⟨by norm_num [InventoryManager.mk0, abs_le],
   adjust_spreads_balanced_id _ 1 2 0.1 (by norm_num [InventoryManager.mk0, abs_le])⟩

/-- C5: `update_inventory` stores and returns
`2*(base_balance*mid_price)/(base_balance*mid_price + quote_balance) - 1` when
the portfolio value is positive and `0` otherwise, and in both cases stores
`base_balance`. -/
theorem update_inventory_spec (s : InventoryManager) (b q m : ℚ) :
    update_inventory s b q m =
      ({ s with
          current_inventory :=
            if 0 < b * m + q then 2 * (b * m) / (b * m + q) - 1 else 0,
          base_balance := b },
        if 0 < b * m + q then 2 * (b * m) / (b * m + q) - 1 else 0) := rfl

/-- C3: in the skewed regime (`|inventory_pct| > skew_threshold`, with the
construction-time precondition `skew_threshold < max_inventory_pct`),
`adjust_spreads` computes `adjustment_factor = clamp((|ip| - st)/(mip - st),
0, 0.8)`, widens the bid by `(1 + 0.5*factor)` and narrows the ask by
`max (0.2, 1 - factor)` when `inventory_pct > 0` (mirror image otherwise),
and raises both results to at least `0.1 * min bid_spread ask_spread`. -/
theorem adjust_spreads_skewed_formula (s : InventoryManager) (bid ask ip : ℚ)
    (hpre : s.skew_threshold < s.max_inventory_pct)
    (h : s.skew_threshold < |ip|) :
    (adjust_spreads s (bid, ask) (some ip)).2 =
      (let f := min (max ((|ip| - s.skew_threshold) /
          (s.max_inventory_pct - s.skew_threshold)) 0) 0.8
       let floor_spread := 0.1 * min bid ask
       if 0 < ip then
         (max (bid * (1 + 0.5 * f)) floor_spread,
          max (ask * max 0.2 (1 - f)) floor_spread)
       else
         (max (bid * max 0.2 (1 - f)) floor_spread,
          max (ask * (1 + 0.5 * f)) floor_spread)) := by
  simp only [adjust_spreads, Option.getD_some, if_neg (not_le.mpr h)]
  rw [max_comm (0 : ℚ)]
  by_cases hip : 0 < ip
  · simp only [if_pos hip]
    ring_nf
  · simp only [if_neg hip]
    ring_nf

/-- Witness for C3 at `max_inventory_pct = 0.35`, `skew_threshold = 0.2`,
spreads `(1, 2)`, `inventory_pct = 0.3`. -/
theorem adjust_spreads_skewed_formula_witness :
    (InventoryManager.mk0 0.35 0.2).skew_threshold <
        (InventoryManager.mk0 0.35 0.2).max_inventory_pct ∧
      (InventoryManager.mk0 0.35 0.2).skew_threshold < |(0.3 : ℚ)| ∧
      (adjust_spreads (InventoryManager.mk0 0.35 0.2) (1, 2) (some 0.3)).2 =
        (4 / 3, 2 / 3) := by
  refine ⟨by norm_num [InventoryManager.mk0],
    by norm_num [InventoryManager.mk0, abs], ?_⟩
  rw [adjust_spreads_skewed_formula (InventoryManager.mk0 0.35 0.2) 1 2 0.3
    (by norm_num [InventoryManager.mk0]) (by norm_num [InventoryManager.mk0, abs])]
  norm_num [InventoryManager.mk0, abs, max_def, min_def]

/-- C10: `adjust_spreads` maps non-negative spreads to non-negative spreads. -/
theorem adjust_spreads_nonneg (s : InventoryManager) (bid ask ip : ℚ)
    (hb : 0 ≤ bid) (ha : 0 ≤ ask)
    (hpre : s.skew_threshold < s.max_inventory_pct) :
    0 ≤ (adjust_spreads s (bid, ask) (some ip)).2.1 ∧
      0 ≤ (adjust_spreads s (bid, ask) (some ip)).2.2 := by
  simp only [adjust_spreads, Option.getD_some]
  by_cases hbal : |ip| ≤ s.skew_threshold
  · simp only [if_pos hbal]
    exact ⟨hb, ha⟩
  · simp only [if_neg hbal]
    set f := min (max 0 ((|ip| - s.skew_threshold) /
      (s.max_inventory_pct - s.skew_threshold))) 0.8 with hf
    have hf0 : 0 ≤ f := le_min (le_max_left 0 _) (by norm_num)
    have hwiden : (0 : ℚ) ≤ 1 + f * 0.5 := by
      have := mul_nonneg hf0 (show (0 : ℚ) ≤ 0.5 by norm_num)
      linarith
    have hnarrow : (0 : ℚ) ≤ max 0.2 (1 - f) :=
      le_trans (by norm_num) (le_max_left (0.2 : ℚ) (1 - f))
    by_cases hip : 0 < ip
    · simp only [if_pos hip]
      exact ⟨le_max_of_le_left (mul_nonneg hb hwiden),
        le_max_of_le_left (mul_nonneg ha hnarrow)⟩
    · simp only [if_neg hip]
      exact ⟨le_max_of_le_left (mul_nonneg hb hnarrow),
        le_max_of_le_left (mul_nonneg ha hwiden)⟩

/-- Witness for C10 at spreads `(1, 2)`, `inventory_pct = 0.3`. -/
theorem adjust_spreads_nonneg_witness :
    (0 : ℚ) ≤ 1 ∧ (0 : ℚ) ≤ 2 ∧
      (InventoryManager.mk0 0.35 0.2).skew_threshold <
        (InventoryManager.mk0 0.35 0.2).max_inventory_pct ∧
      (0 ≤ (adjust_spreads (InventoryManager.mk0 0.35 0.2) (1, 2) (some 0.3)).2.1 ∧
        0 ≤ (adjust_spreads (InventoryManager.mk0 0.35 0.2) (1, 2) (some 0.3)).2.2) :=
  ⟨by norm_num, by norm_num, by norm_num [InventoryManager.mk0],
   adjust_spreads_nonneg (InventoryManager.mk0 0.35 0.2) 1 2 0.3
     (by norm_num) (by norm_num) (by norm_num [InventoryManager.mk0])⟩

/-- C9: `adjust_spreads`, `is_inventory_balanced` and `get_rebalance_amount`
return the input state unchanged (so `current_inventory` and `base_balance`
are untouched); only `update_inventory` mutates the stored state. -/
theorem inventory_state_frame (s : InventoryManager) (base_spread : ℚ × ℚ)
    (inventory_pct? : Option ℚ) (mid_price : ℚ) :
    (adjust_spreads s base_spread inventory_pct?).1 = s ∧
      (is_inventory_balanced s).1 = s ∧
      (get_rebalance_amount s mid_price).1 = s := by
  refine ⟨?_, rfl, ?_⟩
  · simp only [adjust_spreads]
    split_ifs <;> rfl
  · simp only [get_rebalance_amount]
    split_ifs <;> rfl

/-- Counterexample to C8 as stated: with a negative quote balance
(`base_balance = 1`, `quote_balance = -50`, `mid_price = 100`, portfolio
value `50 > 0`) the stored `current_inventory` is `3`, outside `[-1, 1]`. -/
theorem update_inventory_range_cx :
    ¬ (-1 ≤ (update_inventory (InventoryManager.mk0 0.35 0.2)
          1 (-50) 100).1.current_inventory ∧
        (update_inventory (InventoryManager.mk0 0.35 0.2)
          1 (-50) 100).1.current_inventory ≤ 1) := by
  norm_num [update_inventory, InventoryManager.mk0]

/-- C8 (amended): whenever `0 ≤ base_balance * mid_price` and
`0 ≤ quote_balance`, the `current_inventory` stored by `update_inventory`
lies in `[-1, 1]`. -/
theorem update_inventory_range (s : InventoryManager) (b q m : ℚ)
    (hb : 0 ≤ b * m) (hq : 0 ≤ q) :
    -1 ≤ (update_inventory s b q m).1.current_inventory ∧
      (update_inventory s b q m).1.current_inventory ≤ 1 := by
  simp only [update_inventory]
  by_cases h : b * m + q > 0
  · simp only [if_pos h]
    have hdiv0 : 0 ≤ 2 * (b * m) / (b * m + q) :=
      div_nonneg (by linarith) (le_of_lt h)
    have hdiv2 : 2 * (b * m) / (b * m + q) ≤ 2 := by
      rw [div_le_iff₀ h]
      linarith
    exact ⟨by linarith, by linarith⟩
  · simp only [if_neg h]
    norm_num

/-- Witness for C8 (amended) at `base_balance = 1`, `quote_balance = 100`,
`mid_price = 100`. -/
theorem update_inventory_range_witness :
    (0 : ℚ) ≤ 1 * 100 ∧ (0 : ℚ) ≤ 100 ∧
      (-1 ≤ (update_inventory (InventoryManager.mk0 0.35 0.2)
          1 100 100).1.current_inventory ∧
        (update_inventory (InventoryManager.mk0 0.35 0.2)
          1 100 100).1.current_inventory ≤ 1) :=
  ⟨by norm_num, by norm_num,
   update_inventory_range (InventoryManager.mk0 0.35 0.2) 1 100 100
     (by norm_num) (by norm_num)⟩

/-! ## Avellaneda-Stoikov pricing model — `src/models/avellaneda_stoikov.py`

The three constructor parameters of the Python class `AvellanedaStoikov`.
No method assigns to `self`, so the methods are plain functions of the
parameter record. `np.log` is the natural logarithm, modelled by
`Real.log`. -/

/-- Parameters of the `AvellanedaStoikov` model. -/
structure AvellanedaStoikov where
  gamma : ℝ
  lambda_b : ℝ
  lambda_a : ℝ

/-- `AvellanedaStoikov.calculate_bid_spread(volatility, inventory)`:
`(1/γ) * ln(1 + γ/λ_b) + 0.5 * γ * σ^2 * (q+1)^2`. -/
noncomputable def calculate_bid_spread (M : AvellanedaStoikov)
    (volatility inventory : ℝ) : ℝ :=
  let first_term := (1 / M.gamma) * Real.log (1 + M.gamma / M.lambda_b)
  let second_term := 0.5 * M.gamma * volatility ^ 2 * (inventory + 1) ^ 2
  first_term + second_term

/-- `AvellanedaStoikov.calculate_ask_spread(volatility, inventory)`:
`(1/γ) * ln(1 + γ/λ_a) + 0.5 * γ * σ^2 * (q-1)^2`. -/
noncomputable def calculate_ask_spread (M : AvellanedaStoikov)
    (volatility inventory : ℝ) : ℝ :=
  let first_term := (1 / M.gamma) * Real.log (1 + M.gamma / M.lambda_a)
  let second_term := 0.5 * M.gamma * volatility ^ 2 * (inventory - 1) ^ 2
  first_term + second_term

/-- `AvellanedaStoikov.calculate_spreads(mid_price, volatility, inventory)`:
`(mid_price - bid_spread, mid_price + ask_spread)`. -/
noncomputable def calculate_spreads (M : AvellanedaStoikov)
    (mid_price volatility inventory : ℝ) : ℝ × ℝ :=
  let bid_spread := calculate_bid_spread M volatility inventory
  let ask_spread := calculate_ask_spread M volatility inventory
  (mid_price - bid_spread, mid_price + ask_spread)

/-- C2: the two spread methods return exactly the closed-form A-S formulas
stated in the specification, and `calculate_spreads` returns
`(mid_price - bid_spread, mid_price + ask_spread)`. -/
theorem calculate_spreads_formulas (M : AvellanedaStoikov) (mid v q : ℝ) :
    calculate_bid_spread M v q =
        (1 / M.gamma) * Real.log (1 + M.gamma / M.lambda_b) +
          0.5 * M.gamma * v ^ 2 * (q + 1) ^ 2 ∧
      calculate_ask_spread M v q =
        (1 / M.gamma) * Real.log (1 + M.gamma / M.lambda_a) +
          0.5 * M.gamma * v ^ 2 * (q - 1) ^ 2 ∧
      calculate_spreads M mid v q =
        (mid - calculate_bid_spread M v q, mid + calculate_ask_spread M v q) :=
  ⟨rfl, rfl, rfl⟩

/-- Both A-S spreads are strictly positive when `γ, λ_b, λ_a > 0`: the
baseline term `(1/γ) ln(1 + γ/λ)` is positive and the inventory-penalty term
is non-negative. -/
theorem as_spreads_pos (M : AvellanedaStoikov) (v q : ℝ)
    (hγ : 0 < M.gamma) (hb : 0 < M.lambda_b) (ha : 0 < M.lambda_a) :
    0 < calculate_bid_spread M v q ∧ 0 < calculate_ask_spread M v q := by
  have hterm : ∀ lam : ℝ, 0 < lam →
      0 < (1 / M.gamma) * Real.log (1 + M.gamma / lam) := by
    intro lam hlam
    have hratio : 0 < M.gamma / lam := div_pos hγ hlam
    exact mul_pos (by positivity) (Real.log_pos (by linarith))
  have hpen : ∀ x : ℝ, 0 ≤ 0.5 * M.gamma * v ^ 2 * x ^ 2 := fun x =>
    mul_nonneg (mul_nonneg (mul_nonneg (by norm_num) hγ.le) (sq_nonneg v))
      (sq_nonneg x)
  constructor
  · have := hterm M.lambda_b hb
    have := hpen (q + 1)
    simp only [calculate_bid_spread]
    linarith
  · have := hterm M.lambda_a ha
    have := hpen (q - 1)
    simp only [calculate_ask_spread]
    linarith

/-- C1: for every mid-price, volatility `≥ 0` and inventory, if
`γ, λ_b, λ_a > 0` then `calculate_spreads` returns prices with
`bid_price < mid_price < ask_price`. -/
theorem calculate_spreads_brackets_mid (M : AvellanedaStoikov)
    (mid v q : ℝ) (hγ : 0 < M.gamma) (hb : 0 < M.lambda_b)
    (ha : 0 < M.lambda_a) (hv : 0 ≤ v) :
    (calculate_spreads M mid v q).1 < mid ∧
      mid < (calculate_spreads M mid v q).2 := by
  obtain ⟨hbid, hask⟩ := as_spreads_pos M v q hγ hb ha
  constructor
  · show mid - calculate_bid_spread M v q < mid
    linarith
  · show mid < mid + calculate_ask_spread M v q
    linarith

/-- Witness for C1 at `γ = λ_b = λ_a = 1`, `mid = 100`, `σ = 0`, `q = 0`. -/
theorem calculate_spreads_brackets_mid_witness :
    0 < (AvellanedaStoikov.mk 1 1 1).gamma ∧
      0 < (AvellanedaStoikov.mk 1 1 1).lambda_b ∧
      0 < (AvellanedaStoikov.mk 1 1 1).lambda_a ∧
      (0 : ℝ) ≤ 0 ∧
      ((calculate_spreads (AvellanedaStoikov.mk 1 1 1) 100 0 0).1 < 100 ∧
        100 < (calculate_spreads (AvellanedaStoikov.mk 1 1 1) 100 0 0).2) :=
  ⟨one_pos, one_pos, one_pos, le_refl 0,
   calculate_spreads_brackets_mid (AvellanedaStoikov.mk 1 1 1) 100 0 0
     one_pos one_pos one_pos (le_refl 0)⟩

/-! ## Circuit breakers — `src/risk/circuit_breakers.py` -/

/-- The single constructor parameter of the Python class `CircuitBreakers`. -/
structure CircuitBreakers where
  price_change_threshold : ℝ

/-- `CircuitBreakers.check_flash_crash(recent_prices, window=5)`: with fewer
than `window` prices it does not fire; otherwise it fires exactly when the
percent change from `recent_prices[-window]` to `recent_prices[-1]` is below
`-price_change_threshold`. Python's negative indices `-window` and `-1` are
positions `length - window` and `length - 1`. -/
noncomputable def check_flash_crash (cb : CircuitBreakers)
    (recent_prices : List ℝ) (window : ℕ) : Bool :=
  if recent_prices.length < window then false
  else
    let start_price := recent_prices.getD (recent_prices.length - window) 0
    let current_price := recent_prices.getD (recent_prices.length - 1) 0
    let percent_change := (current_price - start_price) / start_price
    if percent_change < -cb.price_change_threshold then true else false

/-- `CircuitBreakers.check_stablecoin_depeg(price, peg_value=1.0,
threshold=0.05)`: fires when `|price - peg_value| / peg_value > threshold`. -/
noncomputable def check_stablecoin_depeg (cb : CircuitBreakers)
    (price peg_value threshold : ℝ) : Bool :=
  let deviation := |price - peg_value| / peg_value
  if deviation > threshold then true else false

/-- `CircuitBreakers.check_abnormal_volume(recent_volumes,
z_score_threshold=3.0)`: with fewer than 10 observations it does not fire;
otherwise it compares the z-score of the most recent volume against the mean
and population standard deviation (`np.std`, the square root of the mean
squared deviation) of all volumes but the last, not firing when that standard
deviation is zero. -/
noncomputable def check_abnormal_volume (cb : CircuitBreakers)
    (recent_volumes : List ℝ) (z_score_threshold : ℝ) : Bool :=
  if recent_volumes.length < 10 then false
  else
    let baseline := recent_volumes.dropLast
    let mean_volume := baseline.sum / (baseline.length : ℝ)
    let std_volume := Real.sqrt
      ((baseline.map (fun v => (v - mean_volume) ^ 2)).sum / (baseline.length : ℝ))
    if std_volume = 0 then false
    else
      let current_volume := recent_volumes.getD (recent_volumes.length - 1) 0
      let z_score := (current_volume - mean_volume) / std_volume
      if z_score > z_score_threshold then true else false

/-- One OHLCV bar, reduced to the two columns the circuit breakers read. -/
structure Bar where
  close : ℝ
  volume : ℝ

/-- `CircuitBreakers.check_all_circuit_breakers(recent_data)`: `False` when
`recent_data is None or len(recent_data) < 10`; otherwise the logical OR of
the three checks, each called with its Python default arguments
(`window=5`, `peg_value=1.0`, `threshold=0.05`, `z_score_threshold=3.0`). -/
noncomputable def check_all_circuit_breakers (cb : CircuitBreakers)
    (recent_data : Option (List Bar)) : Bool :=
  match recent_data with
  | none => false
  | some d =>
    if d.length < 10 then false
    else
      let prices := d.map Bar.close
      let volumes := d.map Bar.volume
      let current_price := prices.getD (prices.length - 1) 0
      let flash_crash := check_flash_crash cb prices 5
      let depeg := check_stablecoin_depeg cb current_price 1 0.05
      let abnormal_volume := check_abnormal_volume cb volumes 3
      flash_crash || depeg || abnormal_volume

/-- C6: the aggregate circuit-breaker check returns `false` when the market
data is absent or has fewer than 10 bars, and otherwise returns `true` iff at
least one of the flash-crash, depeg or abnormal-volume checks fires on that
data. -/
theorem check_all_circuit_breakers_spec (cb : CircuitBreakers) :
    check_all_circuit_breakers cb none = false ∧
      (∀ d : List Bar, d.length < 10 →
        check_all_circuit_breakers cb (some d) = false) ∧
      (∀ d : List Bar, 10 ≤ d.length →
        (check_all_circuit_breakers cb (some d) = true ↔
          check_flash_crash cb (d.map Bar.close) 5 = true ∨
          check_stablecoin_depeg cb
            ((d.map Bar.close).getD ((d.map Bar.close).length - 1) 0)
            1 0.05 = true ∨
          check_abnormal_volume cb (d.map Bar.volume) 3 = true)) := by
  refine ⟨rfl, ?_, ?_⟩
  · intro d h
    simp only [check_all_circuit_breakers]
    rw [if_pos h]
  · intro d h
    simp only [check_all_circuit_breakers]
    rw [if_neg (not_lt.mpr h)]
    simp [Bool.or_eq_true, or_assoc]

/-- Witness for C6: with 3 bars (fewer than 10) the aggregate check is
`false` (fail-open). -/
theorem check_all_circuit_breakers_spec_witness :
    ([Bar.mk 1 1, Bar.mk 1 1, Bar.mk 1 1] : List Bar).length < 10 ∧
      check_all_circuit_breakers ⟨0.2⟩
        (some [Bar.mk 1 1, Bar.mk 1 1, Bar.mk 1 1]) = false :=
  ⟨by norm_num,
   (check_all_circuit_breakers_spec ⟨0.2⟩).2.1
     [Bar.mk 1 1, Bar.mk 1 1, Bar.mk 1 1] (by norm_num)⟩

/-! ## Realized volatility — `src/utils/volatility.py` — and the volatility
step of `market_making_cycle` — `src/main.py` -/

/-- A Python `float` result: either a proper numeric value or IEEE `NaN`.
`get_realized_volatility` can produce `NaN` but can never produce the
distinct Python object `None`. -/
inductive PyFloat
  | nan : PyFloat
  | val : ℝ → PyFloat

/-- `get_realized_volatility(market_data, window=20)`, on the `close` column.

Pandas semantics made explicit: `log_returns` has `NaN` at index 0 (from
`shift(1)`), and `rolling(window).sum()` of the squared returns is `NaN`
whenever its trailing window contains fewer than `window` non-`NaN`
observations; the returned `.iloc[-1]` is therefore `NaN` exactly when the
frame has fewer than `window + 1` bars. The function has no guard: it returns
that value as a `float` (`NaN`, never `None`). The `NaN` outcome is modelled
as `PyFloat.nan`; the well-defined outcome is the square root of the sum of
the last `window` squared log-returns times the annualization factor
(`sqrt 365` only when the configured `TIMEFRAME` is `'1d'`). -/
noncomputable def get_realized_volatility (close : List ℝ)
    (timeframe : String) (window : ℕ) : PyFloat :=
  if close.length < window + 1 then PyFloat.nan
  else
    let log_returns := (close.tail.zip close.dropLast).map
      (fun p => Real.log (p.1 / p.2))
    let squared_returns := log_returns.map (fun r => r ^ 2)
    let realized_variance :=
      (squared_returns.drop (squared_returns.length - window)).sum
    let annualization_factor :=
      if timeframe = "1d" then Real.sqrt 365 else 1
    PyFloat.val (Real.sqrt realized_variance * annualization_factor)

/-- Step 3 of `market_making_cycle` (`src/main.py`): the cycle binds
`volatility = get_realized_volatility(market_data)`. The binding is wrapped
in `Option` because the guard that follows tests for the Python object
`None`; the function always returns a `float`, so the stored value is always
`some`. -/
noncomputable def volatility_step_result (close : List ℝ)
    (timeframe : String) : Option PyFloat :=
  some (get_realized_volatility close timeframe 20)

/-- The abort decision of step 3 of `market_making_cycle`:
`if volatility is None: return False` — the cycle aborts iff the stored
volatility is `None`. -/
noncomputable def cycle_aborts_at_volatility (close : List ℝ)
    (timeframe : String) : Bool :=
  (volatility_step_result close timeframe).isNone

/-- C7 divergence, evaluated at a failing input: with 5 bars (fewer than
`window + 1 = 21`) `get_realized_volatility` returns `NaN` — a float, not a
null/absent result — and the orchestrator's `is None` guard does not fire, so
the cycle is NOT aborted, contrary to the claim. -/
theorem realized_volatility_nan_no_abort :
    get_realized_volatility [100, 101, 102, 103, 104] "5m" 20 = PyFloat.nan ∧
      cycle_aborts_at_volatility [100, 101, 102, 103, 104] "5m" = false := by
  constructor
  · norm_num [get_realized_volatility]
  · rfl

end MarketMaker
